import Mathlib

/-!
Shallow embedding of telegram_poll_bot.py (poll scheduling and delivery
engine): the polls table and its two SELECT projections, the delivery
routine send_poll_from_row, the trigger handlers (periodic_check,
daily_job_callback, the admin-panel callbacks), the startup scheduler
schedule_jobs, and the creation-time validation, together with theorems
settling the specification's claims about them.

Timestamps are modeled as a single instant `now` per trigger invocation
(the source calls int(time.time()) at most a second apart inside one
handler).  The messaging gateway (context.bot) is modeled as an oracle
recording which calls are made and whether each kind of call succeeds.
-/

/-- Dynamic value held in one column of a fetched polls-table row.  A TEXT
column that holds the JSON encoding of a list of strings is kept in decoded
form (constructor vjson): json.loads on it is the identity, and raises on
the other constructors.  NULL is vnull; booleans are stored as the integers
0/1 exactly as the sqlite branch of the source stores them. -/
inductive DbVal where
  | vnull : DbVal
  | vint : Int → DbVal
  | vtext : String → DbVal
  | vjson : List String → DbVal
  deriving DecidableEq

/-- Python truthiness of a column value: None, 0 and the empty string are
falsy; a stored JSON text is a nonempty string (even for the empty list it
would be the text of two brackets), hence truthy. -/
def DbVal.truthy : DbVal → Bool
  | .vnull => false
  | .vint n => n != 0
  | .vtext s => s != ""
  | .vjson _ => true

/-- Integer payload of a column value; the handlers only read integers from
vint columns, the default covers the unreachable shapes. -/
def DbVal.asInt : DbVal → Int
  | .vint n => n
  | _ => 0

/-- Text payload of a column value. -/
def DbVal.asText : DbVal → String
  | .vtext s => s
  | _ => ""

/-- One record of the polls table (CREATE TABLE polls in init_db). -/
structure PollRec where
  id : Int
  chat_id : Int
  question : String
  options : List String
  interval_minutes : Option Int
  schedule_times : Option (List String)
  pinned : Bool
  last_sent : Int
  last_message_id : Option Int
  delete_previous : Bool
  active : Bool
  creator_id : Option Int
  deriving DecidableEq, Inhabited

/-- The stored polls table. -/
abbrev Store := List PollRec

/-- A boolean column as fetched (sqlite stores 0/1). -/
def boolVal (b : Bool) : DbVal := .vint (if b then 1 else 0)

/-- A nullable integer column as fetched. -/
def optInt : Option Int → DbVal
  | none => .vnull
  | some n => .vint n

/-- A nullable JSON-text column as fetched. -/
def optJson : Option (List String) → DbVal
  | none => .vnull
  | some xs => .vjson xs

/-- The 12-column row shape of get_poll and list_polls_for_chat:
SELECT id, chat_id, question, options, interval_minutes, schedule_times,
pinned, last_sent, last_message_id, delete_previous, active, creator_id. -/
def rowFull (p : PollRec) : List DbVal :=
  [.vint p.id, .vint p.chat_id, .vtext p.question, .vjson p.options,
   optInt p.interval_minutes, optJson p.schedule_times, boolVal p.pinned,
   .vint p.last_sent, optInt p.last_message_id, boolVal p.delete_previous,
   boolVal p.active, optInt p.creator_id]

/-- The 10-column row shape of schedule_jobs and periodic_check:
SELECT id, chat_id, question, options, interval_minutes, schedule_times,
pinned, last_sent, active, creator_id. -/
def rowSched (p : PollRec) : List DbVal :=
  [.vint p.id, .vint p.chat_id, .vtext p.question, .vjson p.options,
   optInt p.interval_minutes, optJson p.schedule_times, boolVal p.pinned,
   .vint p.last_sent, boolVal p.active, optInt p.creator_id]

/-- Embeds get_poll (telegram_poll_bot.py lines 136-141): the first row of
the 12-column SELECT filtered by id, or None. -/
def get_poll (db : Store) (pid : Int) : Option (List DbVal) :=
  (db.find? (fun p => p.id == pid)).map rowFull

/-- Embeds update_last_sent (lines 143-147). -/
def update_last_sent (db : Store) (pid : Int) (ts : Int) : Store :=
  db.map (fun p => if p.id == pid then { p with last_sent := ts } else p)

/-- Embeds update_last_sent_and_message (lines 150-154). -/
def update_last_sent_and_message (db : Store) (pid : Int) (ts : Int)
    (message_id : Option Int) : Store :=
  db.map (fun p =>
    if p.id == pid then { p with last_sent := ts, last_message_id := message_id }
    else p)

/-- Embeds set_active (lines 156-160). -/
def set_active (db : Store) (pid : Int) (b : Bool) : Store :=
  db.map (fun p => if p.id == pid then { p with active := b } else p)

/-- Embeds add_poll (lines 114-127).  The database assigns the fresh
primary key, modeled by the explicit argument pid; last_sent starts at 0,
last_message_id at NULL, active at TRUE, and a falsy schedule_times value
(None or the empty list) is stored as NULL because timesj is None then. -/
def add_poll (db : Store) (pid : Int) (chat_id : Int) (question : String)
    (options : List String) (interval_minutes : Option Int)
    (schedule_times : Option (List String)) (pinned : Bool)
    (delete_previous : Bool) (creator_id : Option Int) : Store :=
  db ++ [{ id := pid, chat_id := chat_id, question := question,
           options := options, interval_minutes := interval_minutes,
           schedule_times := match schedule_times with
             | none => none
             | some [] => none
             | some ts => some ts,
           pinned := pinned, last_sent := 0, last_message_id := none,
           delete_previous := delete_previous, active := true,
           creator_id := creator_id }]

/-- Behavior of the messaging gateway (context.bot) for one trigger
invocation: sendResult is the message id returned by send_poll, or none
when send_poll raises; deleteOk and pinOk tell whether delete_message and
pin_chat_message succeed. -/
structure Gateway where
  sendResult : Option Int
  deleteOk : Bool
  pinOk : Bool
  deriving DecidableEq

/-- One call made to the messaging gateway. -/
inductive GwEvent where
  | send : Int → String → List String → GwEvent
  | del : Int → Int → GwEvent
  | pin : Int → Int → GwEvent
  deriving DecidableEq

/-- A Python exception escaping a handler: valueError is the tuple-unpack
arity failure, jsonError stands for json.loads raising. -/
inductive PyErr where
  | valueError : PyErr
  | jsonError : PyErr
  deriving DecidableEq

/-- Result of running one handler: the table afterwards, the gateway calls
made (in order), and the exception that escaped, if any.  Mutations already
committed before an exception persist in db. -/
structure PyResult where
  db : Store
  events : List GwEvent
  err : Option PyErr
  deriving DecidableEq

/-- Embeds send_poll_from_row (lines 355-377).  The body first unpacks the
row into twelve names (raising ValueError on any other arity), returns
silently when active is falsy, decodes the options JSON (outside the try,
so a failure there escapes), then inside the try sends the poll - a
send_poll failure is caught, logged, and leaves the table untouched -
deletes the previous message when requested (failure swallowed), updates
last_sent and last_message_id, and pins (failure swallowed). -/
def send_poll_from_row (gw : Gateway) (now : Int) (db : Store)
    (row : List DbVal) : PyResult :=
  match row with
  | [vpid, vchat, vq, vopts, _vmins, _vtimesj, vpin, _vls, vlmi, vdelprev,
     vactive, _vcreator] =>
    if vactive.truthy = false then ⟨db, [], none⟩
    else
      match vopts with
      | .vjson options =>
        match gw.sendResult with
        | none => ⟨db, [.send vchat.asInt vq.asText options], none⟩
        | some message_id =>
          let ev1 := [GwEvent.send vchat.asInt vq.asText options]
          let ev2 := if vdelprev.truthy && vlmi.truthy
            then ev1 ++ [GwEvent.del vchat.asInt vlmi.asInt] else ev1
          let db1 := update_last_sent_and_message db vpid.asInt now (some message_id)
          let ev3 := if vpin.truthy
            then ev2 ++ [GwEvent.pin vchat.asInt message_id] else ev2
          ⟨db1, ev3, none⟩
      | _ => ⟨db, [], some .jsonError⟩
  | _ => ⟨db, [], some .valueError⟩

/-- Embeds daily_job_callback (lines 409-414): re-read the poll by id, do
nothing when missing, otherwise deliver and then unconditionally stamp
last_sent with the current time.  An exception escaping the delivery skips
that stamp. -/
def daily_job_callback (gw : Gateway) (now : Int) (db : Store) (pid : Int) :
    PyResult :=
  match get_poll db pid with
  | none => ⟨db, [], none⟩
  | some row =>
    let r := send_poll_from_row gw now db row
    match r.err with
    | some e => ⟨r.db, r.events, some e⟩
    | none => ⟨update_last_sent r.db pid now, r.events, none⟩

/-- Embeds the admin-panel send branch of on_callback (lines 323-332): same
shape as daily_job_callback - re-read, deliver, unconditionally stamp
last_sent. -/
def on_callback_send (gw : Gateway) (now : Int) (db : Store) (pid : Int) :
    PyResult :=
  match get_poll db pid with
  | none => ⟨db, [], none⟩
  | some row =>
    let r := send_poll_from_row gw now db row
    match r.err with
    | some e => ⟨r.db, r.events, some e⟩
    | none => ⟨update_last_sent r.db pid now, r.events, none⟩

/-- Embeds the admin-panel toggle branch of on_callback (lines 339-349):
re-read the poll, take element 8 of the 12-column row as the active flag
(in this row shape element 8 is the last_message_id column; the active
column is element 10), and store its negated truthiness. -/
def on_callback_toggle (db : Store) (pid : Int) : Store :=
  match get_poll db pid with
  | none => db
  | some row =>
    let active := row.getD 8 DbVal.vnull
    set_active db pid (!active.truthy)

/-- The due condition of periodic_check (lines 424-426): skip when active is
falsy, then require mins truthy and last_sent equal to 0 or
now greater or equal to last_sent plus mins times 60. -/
def due_row (now : Int) (vactive vmins vls : DbVal) : Bool :=
  vactive.truthy && vmins.truthy &&
    ((vls.asInt == 0) || decide (vls.asInt + vmins.asInt * 60 ≤ now))

/-- The due condition of periodic_check applied to a stored record, through
the 10-column row projection it reads. -/
def due_check (now : Int) (p : PollRec) : Bool :=
  due_row now (boolVal p.active) (optInt p.interval_minutes)
    (DbVal.vint p.last_sent)

/-- Loop body of periodic_check: iterate over the snapshot of 10-column
rows taken at tick start; for each due row call send_poll_from_row (passing
that same 10-column row) and then stamp last_sent; an exception escaping a
delivery aborts the whole tick, keeping mutations made so far. -/
def periodic_check_go (gw : Gateway) (now : Int) :
    List (List DbVal) → Store → List GwEvent → PyResult
  | [], db, evs => ⟨db, evs, none⟩
  | row :: rest, db, evs =>
    match row with
    | [vpid, _vchat, _vq, _vopts, vmins, _vtimesj, _vpin, vls, vactive,
       _vcreator] =>
      if due_row now vactive vmins vls then
        let r := send_poll_from_row gw now db row
        match r.err with
        | some e => ⟨r.db, evs ++ r.events, some e⟩
        | none =>
          periodic_check_go gw now rest (update_last_sent r.db vpid.asInt now)
            (evs ++ r.events)
      else periodic_check_go gw now rest db evs
    | _ => ⟨db, evs, some .valueError⟩

/-- Embeds periodic_check (lines 416-428): snapshot all rows with the
10-column SELECT, then run the loop. -/
def periodic_check (gw : Gateway) (now : Int) (db : Store) : PyResult :=
  periodic_check_go gw now (db.map rowSched) db []

/-- Python str.split with an explicit separator on the character list of a
string: splits at every separator occurrence and keeps empty pieces. -/
def py_split (sep : Char) : List Char → List (List Char)
  | [] => [[]]
  | c :: cs =>
    match py_split sep cs with
    | [] => [[c]]
    | g :: gs => if c = sep then [] :: g :: gs else (c :: g) :: gs

/-- Python str.strip on a character list: drop whitespace from both ends. -/
def py_strip (cs : List Char) : List Char :=
  ((cs.dropWhile Char.isWhitespace).reverse.dropWhile Char.isWhitespace).reverse

/-- Python int() restricted to nonnegative all-digit strings, the only
shapes the wizard ever stores for schedule times; anything else (empty,
sign, stray character) yields none, which the caller of the embedding turns
into the same skip that the source's caught exception produces. -/
def digits_to_nat : Option Nat → List Char → Option Nat
  | acc, [] => acc
  | acc, c :: cs =>
    if c.isDigit then digits_to_nat (some ((acc.getD 0) * 10 + (c.toNat - '0'.toNat))) cs
    else none

/-- Embeds the option parsing of set_options (line 189): split the message
text on commas, strip each piece, and keep the nonempty ones. -/
def split_options (text : String) : List String :=
  (((py_split (',') text.data).map py_strip).filter (fun cs => cs ≠ [])).map
    (fun cs => String.mk cs)

/-- Acceptance condition of set_options (lines 190-192): at least two
parsed options, otherwise the wizard re-prompts and stores nothing. -/
def set_options_ok (text : String) : Prop := 2 ≤ (split_options text).length

instance (text : String) : Decidable (set_options_ok text) :=
  inferInstanceAs (Decidable (2 ≤ (split_options text).length))

/-- Embeds the time parsing inside schedule_jobs (lines 399-404): split the
entry on a colon into exactly two parts (any other arity raises at tuple
unpack and the entry is skipped), read both as integers as int() does, and
require the datetime.time range check hour below 24 and minute below 60
(out-of-range values raise and the entry is skipped). -/
def parse_hhmm (t : String) : Option (Nat × Nat) :=
  match py_split (':') t.data with
  | [h, m] =>
    match digits_to_nat none (py_strip h), digits_to_nat none (py_strip m) with
    | some hh, some mm => if hh < 24 ∧ mm < 60 then some (hh, mm) else none
    | _, _ => none
  | _ => none

/-- One job registered with the job queue by schedule_jobs. -/
structure DailyJob where
  name : String
  pollId : Int
  hh : Nat
  mm : Nat
  deriving DecidableEq

/-- One run_daily job per parseable entry of a times list, named after the
poll id and the raw entry (lines 398-404). -/
def poll_jobs_of (pid : Int) (ts : List String) : List DailyJob :=
  ts.filterMap (fun t =>
    (parse_hhmm t).map (fun hm =>
      ⟨"poll_" ++ toString pid ++ "_" ++ t, pid, hm.1, hm.2⟩))

/-- The jobs the schedule_jobs loop body (lines 386-407) registers for one
stored poll: none when the poll is inactive or has no stored times, else
one job per parseable entry of the times list. -/
def poll_jobs (p : PollRec) : List DailyJob :=
  if p.active = false then []
  else
    match p.schedule_times with
    | none => []
    | some ts => poll_jobs_of p.id ts

/-- Embeds schedule_jobs (lines 378-407) over the whole table. -/
def schedule_jobs (db : Store) : List DailyJob := db.flatMap poll_jobs

/-- Modelled from the spec: the job-queue collaborator backing run_daily is
outside the repository; per the specification's daily-trigger description
each registered job fires once per day at its clock time, so the number of
deliveries of a poll inside one day's minute window equals the number of
its registered jobs carrying that HH:MM. -/
def daily_fire_count (p : PollRec) (h m : Nat) : Nat :=
  ((poll_jobs p).filter (fun j => j.hh == h && j.mm == m)).length

/-- A gateway invocation on which every call succeeds (send_poll returns
message id 7). -/
def gwOk : Gateway := ⟨some 7, true, true⟩

/-- A gateway invocation on which send_poll raises. -/
def gwFail : Gateway := ⟨none, true, true⟩

/-- An active interval poll, previously sent at time 100. -/
def pollC2 : PollRec :=
  ⟨1, 10, "q", ["a", "b"], some 5, none, false, 100, none, false, true, none⟩

/-- C2: evaluation of the code at a delivery whose send_poll raises.  The
manual admin send re-reads the poll, send_poll_from_row swallows the send
failure without touching the table, but the handler then stamps last_sent
unconditionally (line 328), so last_sent moves from 100 to the trigger time
1000 and the poll stops being due instead of staying due for a retry.
daily_job_callback (line 414) and periodic_check (line 428) have the same
unconditional stamp after the swallowed failure. -/
theorem manual_send_failure_mutates_last_sent :
    on_callback_send gwFail 1000 [pollC2] 1 =
      ⟨[{ pollC2 with last_sent := 1000 }],
       [GwEvent.send 10 ("q") ["a", "b"]], none⟩ := by decide

/-- A paused daily-times poll, previously sent at time 100. -/
def pollC5 : PollRec :=
  ⟨1, 10, "q", ["a", "b"], none, some ["09:00"], false, 100, none, false,
   false, none⟩

/-- C5: evaluation of the code at a daily job firing for a poll with
active false, and for a missing poll id.  The missing id is a true no-op,
but for the paused poll send_poll_from_row returns early without any
gateway call and daily_job_callback still stamps last_sent (100 becomes
200), so the stored state is not unchanged as the claim requires. -/
theorem daily_job_inactive_poll_mutates_last_sent :
    daily_job_callback gwOk 200 [pollC5] 1 =
      ⟨[{ pollC5 with last_sent := 200 }], [], none⟩ ∧
    daily_job_callback gwOk 200 [pollC5] 99 = ⟨[pollC5], [], none⟩ := by decide

/-- First of two active, never-sent interval polls. -/
def pollC6a : PollRec :=
  ⟨1, 10, "q1", ["a", "b"], some 5, none, false, 0, none, false, true, none⟩

/-- Second of two active, never-sent interval polls. -/
def pollC6b : PollRec :=
  ⟨2, 11, "q2", ["c", "d"], some 5, none, false, 0, none, false, true, none⟩

/-- C6: evaluation of one tick over two due polls.  periodic_check fetches
10-column rows and send_poll_from_row unpacks every row into 12 names, so
the first due poll raises ValueError at the unpack; the exception escapes
the loop (send_poll_from_row's try does not cover the unpack), the tick
aborts with no gateway call and no bookkeeping, and the second due poll is
never evaluated. -/
theorem periodic_check_tick_aborts_on_first_due :
    due_check 1000 pollC6a = true ∧ due_check 1000 pollC6b = true ∧
    periodic_check gwOk 1000 [pollC6a, pollC6b] =
      ⟨[pollC6a, pollC6b], [], some PyErr.valueError⟩ := by decide

/-- An active due interval poll that has a previous message id 42. -/
def pollC7 : PollRec :=
  ⟨1, 10, "q", ["a", "b"], some 5, none, false, 100, some 42, false, true,
   none⟩

/-- C7: evaluation of two toggle callbacks.  The toggle branch reads
element 8 of get_poll's 12-column row as the active flag, but in that row
shape element 8 is last_message_id (active is element 10); with a previous
message id 42 both toggles store active := not bool(42) = false, so after
two toggles the poll is paused and its due evaluation flips from true to
false instead of returning to the original result. -/
theorem toggle_twice_changes_due_result :
    due_check 400 pollC7 = true ∧
    on_callback_toggle (on_callback_toggle [pollC7] 1) 1 =
      [{ pollC7 with active := false }] ∧
    due_check 400 { pollC7 with active := false } = false := by decide

/-- An active daily-times poll whose stored times list holds the same
entry twice, as the wizard accepts (valid_times_list does not deduplicate). -/
def pollC4 : PollRec :=
  ⟨1, 10, "q", ["a", "b"], none, some ["09:00", "09:00"], false, 0, none,
   false, true, none⟩

/-- C4 counterexample: a poll whose times list repeats an entry gets two
run_daily jobs at the same clock time from schedule_jobs, so two deliveries
land inside the 09:00 minute window, refuting at-most-once per window. -/
theorem duplicate_daily_times_fire_twice :
    daily_fire_count pollC4 9 0 = 2 ∧ ¬ daily_fire_count pollC4 9 0 ≤ 1 := by
  decide

/-- A creation message with eleven comma-separated options. -/
def optionsTextC9 : String := "a,b,c,d,e,f,g,h,i,j,k"

/-- C9 counterexample: set_options only rejects fewer than two options, so
an eleven-option message is accepted and add_poll stores all eleven,
violating the claimed upper bound of 10. -/
theorem set_options_accepts_eleven_options :
    set_options_ok optionsTextC9 ∧
    (add_poll [] 1 10 ("q") (split_options optionsTextC9) (some 60) none false
        false none).map (fun p => p.options.length) = [11] := by decide

/-- C3: for a poll carrying an Interval trigger (interval_minutes m with m
positive), the due condition that periodic_check evaluates equals: active,
and (never sent, marked by last_sent 0, or now at least last_sent plus m
minutes).  The boundary at exact equality counts as due, and an inactive
poll is never due (the conjunction is false whenever active is false). -/
theorem interval_due_check_iff (p : PollRec) (now m : Int)
    (hm : p.interval_minutes = some m) (hpos : 0 < m) :
    due_check now p =
      (p.active &&
        (decide (p.last_sent = 0) || decide (p.last_sent + m * 60 ≤ now))) := by
  have hm0 : m ≠ 0 := by omega
  rw [Bool.eq_iff_iff]
  cases ha : p.active <;>
    simp [due_check, due_row, hm, ha, boolVal, DbVal.truthy, DbVal.asInt,
      optInt, hm0]

/-- An active, never-sent interval poll. -/
def pollC3 : PollRec :=
  ⟨1, 10, "q", ["a", "b"], some 5, none, false, 0, none, false, true, none⟩

/-- C3 witness: the theorem at pollC3, now 0, m 5. -/
theorem interval_due_check_iff_witness :
    due_check 0 pollC3 =
      (pollC3.active &&
        (decide (pollC3.last_sent = 0) ||
          decide (pollC3.last_sent + 5 * 60 ≤ 0))) :=
  interval_due_check_iff pollC3 0 5 (by decide) (by decide)

/-- send_poll_from_row on any ten-element row: the twelve-name unpack
raises ValueError before anything else happens. -/
theorem send_poll_from_row_ten (gw : Gateway) (now : Int) (db : Store)
    (a b c d e f g h i j : DbVal) :
    send_poll_from_row gw now db [a, b, c, d, e, f, g, h, i, j] =
      ⟨db, [], some PyErr.valueError⟩ := rfl

/-- A tick of periodic_check leaves the table unchanged and makes no
gateway call: every due row aborts at send_poll_from_row's unpack of the
10-column row, and a non-due row is skipped. -/
theorem periodic_check_go_pure (gw : Gateway) (now : Int) (ps : List PollRec) :
    ∀ (db : Store) (evs : List GwEvent),
      (periodic_check_go gw now (ps.map rowSched) db evs).db = db ∧
      (periodic_check_go gw now (ps.map rowSched) db evs).events = evs := by
  induction ps with
  | nil => intro db evs; exact ⟨rfl, rfl⟩
  | cons p ps ih =>
    intro db evs
    by_cases hd : due_row now (boolVal p.active) (optInt p.interval_minutes)
        (DbVal.vint p.last_sent) = true
    · simp [periodic_check_go, rowSched, hd, send_poll_from_row_ten]
    · simp only [List.map_cons, periodic_check_go, rowSched]
      rw [if_neg hd]
      exact ih db evs

/-- C10: periodic_check never delivers a poll without an interval trigger:
a poll with interval_minutes NULL or 0 fails the mins-truthiness guard, so
its due condition is false and the interval tick makes no gateway call and
no bookkeeping write for it.  (On this code path the tick never mutates the
table or reaches the gateway at all: a due interval poll aborts the tick at
the row unpack first.)  Daily-times polls are therefore fired only by their
scheduled daily jobs. -/
theorem periodic_check_never_delivers_daily_only (gw : Gateway) (now : Int)
    (db : Store) (p : PollRec) (_hp : p ∈ db)
    (hm : p.interval_minutes = none ∨ p.interval_minutes = some 0) :
    due_check now p = false ∧
    (periodic_check gw now db).db = db ∧
    (periodic_check gw now db).events = [] := by
  refine ⟨?_, (periodic_check_go_pure gw now db db []).1,
    (periodic_check_go_pure gw now db db []).2⟩
  rcases hm with hm | hm <;>
    simp [due_check, due_row, hm, optInt, DbVal.truthy]

/-- An active daily-times-only poll (interval_minutes NULL). -/
def pollC10 : PollRec :=
  ⟨3, 10, "q", ["a", "b"], none, some ["09:00"], false, 0, none, false, true,
   none⟩

/-- C10 witness: the theorem at gwOk, now 500, the singleton table. -/
theorem periodic_check_never_delivers_daily_only_witness :
    due_check 500 pollC10 = false ∧
    (periodic_check gwOk 500 [pollC10]).db = [pollC10] ∧
    (periodic_check gwOk 500 [pollC10]).events = [] :=
  periodic_check_never_delivers_daily_only gwOk 500 [pollC10] pollC10
    (by decide) (Or.inl (by decide))

/-- C8: in send_poll_from_row with deletePrevious set and a previous
message id m1, when send_poll succeeds with new id m2, the outcome is the
same whether delete_message and pin_chat_message succeed or fail (dOk and
pOk are arbitrary): no exception escapes, the delete of m1 is attempted,
and the single bookkeeping write sets last_sent to now and last_message_id
to m2 - so a failed delete or pin is non-fatal and the delivery completes. -/
theorem delete_pin_failures_nonfatal (db : Store) (p : PollRec)
    (now m2 m1 : Int) (dOk pOk : Bool) (ha : p.active = true)
    (hdp : p.delete_previous = true) (hlmi : p.last_message_id = some m1)
    (hm1 : m1 ≠ 0) :
    (send_poll_from_row ⟨some m2, dOk, pOk⟩ now db (rowFull p)).err = none ∧
    (send_poll_from_row ⟨some m2, dOk, pOk⟩ now db (rowFull p)).db =
      update_last_sent_and_message db p.id now (some m2) ∧
    GwEvent.del p.chat_id m1 ∈
      (send_poll_from_row ⟨some m2, dOk, pOk⟩ now db (rowFull p)).events := by
  cases hpin : p.pinned <;>
    simp [send_poll_from_row, rowFull, ha, hdp, hlmi, hpin, hm1, boolVal,
      optInt, DbVal.truthy, DbVal.asInt, DbVal.asText]

/-- An active pinned poll with deletePrevious set and previous message 41. -/
def pollC8 : PollRec :=
  ⟨1, 10, "q", ["a", "b"], some 5, none, true, 100, some 41, true, true, none⟩

/-- C8 witness: the theorem at pollC8 with both delete and pin failing. -/
theorem delete_pin_failures_nonfatal_witness :
    (send_poll_from_row ⟨some 77, false, false⟩ 900 [pollC8]
      (rowFull pollC8)).err = none ∧
    (send_poll_from_row ⟨some 77, false, false⟩ 900 [pollC8]
      (rowFull pollC8)).db =
      update_last_sent_and_message [pollC8] pollC8.id 900 (some 77) ∧
    GwEvent.del pollC8.chat_id 41 ∈
      (send_poll_from_row ⟨some 77, false, false⟩ 900 [pollC8]
        (rowFull pollC8)).events :=
  delete_pin_failures_nonfatal [pollC8] pollC8 900 77 41 false false
    (by decide) (by decide) (by decide) (by decide)

/-- Counting lemma for the daily jobs of one poll: over a times list whose
parseable entries are pairwise distinct, at most one registered job carries
a given clock time; the second conjunct strengthens the induction - when
the window's time is not among the parsed entries, no job matches at all. -/
theorem jobs_filter_le_one (pid : Int) (h m : Nat) :
    ∀ ts : List String, (ts.filterMap parse_hhmm).Nodup →
      ((poll_jobs_of pid ts).filter
          (fun j => j.hh == h && j.mm == m)).length ≤ 1 ∧
      ((h, m) ∈ ts.filterMap parse_hhmm ∨
        ((poll_jobs_of pid ts).filter
            (fun j => j.hh == h && j.mm == m)).length = 0) := by
  intro ts
  induction ts with
  | nil =>
    intro _
    exact ⟨by simp [poll_jobs_of], Or.inr (by simp [poll_jobs_of])⟩
  | cons t ts ih =>
    intro hnd
    cases hp : parse_hhmm t with
    | none =>
      have hnd' : (ts.filterMap parse_hhmm).Nodup := by
        simpa [List.filterMap_cons, hp] using hnd
      have hih := ih hnd'
      refine ⟨by simpa [poll_jobs_of, List.filterMap_cons, hp] using hih.1, ?_⟩
      rcases hih.2 with hmem | hz
      · exact Or.inl (by simp [List.filterMap_cons, hp, hmem])
      · exact Or.inr (by simpa [poll_jobs_of, List.filterMap_cons, hp] using hz)
    | some ab =>
      obtain ⟨a, b⟩ := ab
      have hcons : (ts.filterMap parse_hhmm).Nodup ∧
          (a, b) ∉ ts.filterMap parse_hhmm := by
        have := hnd
        rw [List.filterMap_cons, hp] at this
        exact ⟨(List.nodup_cons.mp this).2, (List.nodup_cons.mp this).1⟩
      have hih := ih hcons.1
      by_cases hc : a = h ∧ b = m
      · obtain ⟨rfl, rfl⟩ := hc
        have hz : ((poll_jobs_of pid ts).filter
            (fun j => j.hh == a && j.mm == b)).length = 0 := by
          rcases hih.2 with hmem | hz
          · exact absurd hmem hcons.2
          · exact hz
        constructor
        · simp [poll_jobs_of, List.filterMap_cons, hp, List.filter_cons]
          simpa [poll_jobs_of] using Nat.le_of_eq hz
        · exact Or.inl (by simp [List.filterMap_cons, hp])
      · have hcb : ((a == h) && (b == m)) = false := by
          rcases not_and_or.mp hc with h1 | h1 <;> simp [h1]
        constructor
        · simpa [poll_jobs_of, List.filterMap_cons, hp, List.filter_cons, hcb]
            using hih.1
        · rcases hih.2 with hmem | hz
          · exact Or.inl (by simp [List.filterMap_cons, hp, hmem])
          · refine Or.inr ?_
            simpa [poll_jobs_of, List.filterMap_cons, hp, List.filter_cons, hcb]
              using hz

/-- C4 amended: for a stored daily-times poll whose entries parse to
pairwise distinct clock times, at most one registered run_daily job matches
any minute window, so delivery executes at most once inside that window
(whereas duplicated entries, as in the counterexample, each fire). -/
theorem daily_fire_count_le_one_of_nodup (p : PollRec) (ts : List String)
    (hts : p.schedule_times = some ts)
    (hnd : (ts.filterMap parse_hhmm).Nodup) (h m : Nat) :
    daily_fire_count p h m ≤ 1 := by
  cases ha : p.active
  · simp [daily_fire_count, poll_jobs, ha]
  · simp only [daily_fire_count, poll_jobs, ha, hts]
    simpa using (jobs_filter_le_one p.id h m ts hnd).1

/-- An active daily-times poll with two distinct times. -/
def pollC4b : PollRec :=
  ⟨2, 10, "q", ["a", "b"], none, some ["09:00", "18:00"], false, 0, none,
   false, true, none⟩

/-- C4 amended witness: the theorem at pollC4b and the 09:00 window. -/
theorem daily_fire_count_le_one_witness : daily_fire_count pollC4b 9 0 ≤ 1 :=
  daily_fire_count_le_one_of_nodup pollC4b ["09:00", "18:00"] (by decide)
    (by decide) 9 0

/-- C9 amended: every poll stored by the creation flow has at least two
options - the lower bound that set_options enforces; the upper bound of ten
and the trigger-variant exclusivity are not checked by this code. -/
theorem add_poll_options_at_least_two (db : Store) (pid chat : Int)
    (question text : String) (mins : Option Int) (ts : Option (List String))
    (pin dp : Bool) (creator : Option Int) (hok : set_options_ok text) :
    2 ≤ ((add_poll db pid chat question (split_options text) mins ts pin dp
      creator).getLastD default).options.length := by
  unfold add_poll
  rw [List.getLastD_concat]
  exact hok

/-- C9 amended witness: the theorem at a two-option creation message. -/
theorem add_poll_options_at_least_two_witness :
    2 ≤ ((add_poll [] 5 10 ("q") (split_options ("a,b")) none none false false
      none).getLastD default).options.length :=
  add_poll_options_at_least_two [] 5 10 ("q") ("a,b") none none false false
    none (by decide)
